import Mathlib

/-!
# caffe2/core/common.h

A shallow embedding of the parts of `caffe2/core/common.h` that carry behaviour:

* the version macro `CAFFE2_VERSION` (lines 31-36),
* the preprocessor block that derives `CAFFE2_MOBILE`, `CAFFE2_ANDROID` and
  `CAFFE2_IOS` (lines 82-96),
* the class template `SkipIndices` with its empty specialisation (lines 183-207).

Conventions.

* A C++ `int` is embedded as a Lean `Int`.  `SkipIndices` only compares its
  arguments with `==`, so no arithmetic can overflow there.  The version macro
  expands to an `int` expression: every `*` and `+` of it is followed by a
  reduction to the 32-bit two's-complement range (`wrapInt32`).
* An object-like macro that may or may not be defined is an `Option Int`:
  `none` when undefined, `some v` when defined with replacement `v`.
* A `#if` / `#elif` chain is an `if ... then ... else` chain in the same order.
-/

namespace caffe2

/-! ## Version macro (common.h 31-36) -/

/-- Line 31: the major version field, a literal of the header. -/
def CAFFE2_VERSION_MAJOR : Int := 0

/-- Line 32: the minor version field, a literal of the header. -/
def CAFFE2_VERSION_MINOR : Int := 6

/-- Line 33: the patch version field, a literal of the header. -/
def CAFFE2_VERSION_PATCH : Int := 0

/-- Result of an `int` operation whose mathematical value is `x`: the value
reduced modulo `2^32` into the range `[-2^31, 2^31 - 1]` of a 32-bit `int`. -/
def wrapInt32 (x : Int) : Int :=
  (x + 2147483648) % 4294967296 - 2147483648

/-- Lines 34-36: the replacement list of `CAFFE2_VERSION`, with the three field
macros it mentions taken as arguments.  The expression
`(MAJOR * 10000 + MINOR * 100 + PATCH)` is evaluated on `int` operands, left to
right: the two products, their sum, then the sum with the patch field. -/
def versionEncoding (major minor patch : Int) : Int :=
  wrapInt32 (wrapInt32 (wrapInt32 (major * 10000) + wrapInt32 (minor * 100)) + patch)

/-- Lines 34-36: the macro `CAFFE2_VERSION`, expanded with the fields of the
header. -/
def CAFFE2_VERSION : Int :=
  versionEncoding CAFFE2_VERSION_MAJOR CAFFE2_VERSION_MINOR CAFFE2_VERSION_PATCH

/-! ## Platform detection (common.h 82-96) -/

/-- The compiler and OS identification macros the detection block reads.
`__ANDROID__` and `__APPLE__` are only tested with `defined(...)`, so they are
booleans.  The four `TARGET_...` macros are used as `#if` operands: each is the
integer it expands to, and `0` when it is not defined (the preprocessor replaces
an unknown identifier by `0`). -/
structure Target where
  /-- Whether `defined(__ANDROID__)` holds. -/
  __ANDROID__ : Bool
  /-- Whether `defined(__APPLE__)` holds. -/
  __APPLE__ : Bool
  /-- Value of `TARGET_IPHONE_SIMULATOR` in a `#if`. -/
  TARGET_IPHONE_SIMULATOR : Int
  /-- Value of `TARGET_OS_SIMULATOR` in a `#if`. -/
  TARGET_OS_SIMULATOR : Int
  /-- Value of `TARGET_OS_IPHONE` in a `#if`. -/
  TARGET_OS_IPHONE : Int
  /-- Value of `TARGET_OS_MAC` in a `#if`. -/
  TARGET_OS_MAC : Int
  deriving DecidableEq, Repr

/-- The three flags the detection block may define. -/
inductive Flag where
  | CAFFE2_MOBILE
  | CAFFE2_ANDROID
  | CAFFE2_IOS
  deriving DecidableEq, Repr

/-- The part of the macro table the detection block reads or writes: for each
flag, `none` when it is not defined and `some v` when it is defined as `v`. -/
structure Macros where
  /-- Current definition of `CAFFE2_MOBILE`. -/
  CAFFE2_MOBILE : Option Int
  /-- Current definition of `CAFFE2_ANDROID`. -/
  CAFFE2_ANDROID : Option Int
  /-- Current definition of `CAFFE2_IOS`. -/
  CAFFE2_IOS : Option Int
  deriving DecidableEq, Repr

/-- The macro table in which none of the three flags has been defined before the
header is read. -/
def Macros.undefined : Macros :=
  { CAFFE2_MOBILE := none, CAFFE2_ANDROID := none, CAFFE2_IOS := none }

/-- Truth value of a flag used as a `#if` operand: an undefined macro counts as
`0`, and any non-zero value is true. -/
def flagTrue (v : Option Int) : Bool :=
  match v with
  | none => false
  | some n => n != 0

/-- Effect of one `#define FLAG value` directive on the macro table. -/
def Macros.define (t : Macros) (d : Flag × Int) : Macros :=
  match d.1 with
  | Flag.CAFFE2_MOBILE => { t with CAFFE2_MOBILE := some d.2 }
  | Flag.CAFFE2_ANDROID => { t with CAFFE2_ANDROID := some d.2 }
  | Flag.CAFFE2_IOS => { t with CAFFE2_IOS := some d.2 }

/-- Lines 82-96: the `#define` directives the block executes, in source order,
for the identification macros `p` and the incoming macro table `t`. -/
def detectDirectives (p : Target) (t : Macros) : List (Flag × Int) :=
  -- #if !defined(CAFFE2_MOBILE)
  if !t.CAFFE2_MOBILE.isSome then
    -- #if defined(__ANDROID__)
    if p.__ANDROID__ then
      [(Flag.CAFFE2_ANDROID, 1), (Flag.CAFFE2_MOBILE, 1)]
    -- #elif (defined(__APPLE__) &&
    --   (TARGET_IPHONE_SIMULATOR || TARGET_OS_SIMULATOR || TARGET_OS_IPHONE))
    else if p.__APPLE__ &&
        (p.TARGET_IPHONE_SIMULATOR != 0 || p.TARGET_OS_SIMULATOR != 0
          || p.TARGET_OS_IPHONE != 0) then
      [(Flag.CAFFE2_IOS, 1), (Flag.CAFFE2_MOBILE, 1)]
    -- #elif (defined(__APPLE__) && TARGET_OS_MAC)
    else if p.__APPLE__ && p.TARGET_OS_MAC != 0 then
      [(Flag.CAFFE2_IOS, 1), (Flag.CAFFE2_MOBILE, 0)]
    -- #else
    else
      [(Flag.CAFFE2_MOBILE, 0)]
  else
    []

/-- Lines 82-96: the macro table after the detection block. -/
def detect (p : Target) (t : Macros) : Macros :=
  (detectDirectives p t).foldl Macros.define t

/-! ## SkipIndices (common.h 183-207) -/

namespace SkipIndices

/-- Lines 186-193: the two overloads of `ContainsInternal`.  The template
argument pack is never empty here; it is given as its first value and the list
of the remaining ones.

* `ContainsInternal<V>(i)` is `(i == V)`;
* `ContainsInternal<First, Second, Rest...>(i)` is
  `(i == First) && ContainsInternal<Second, Rest...>(i)`. -/
def ContainsInternal : Int → List Int → Int → Bool
  | V, [], i => (i == V)
  | First, Second :: Rest, i => (i == First) && ContainsInternal Second Rest i

/-- Lines 196-198 and 204-206: `SkipIndices<values...>::Contains(i)`.  The empty
pack selects the specialisation `SkipIndices<>`, which returns `false`; any
other pack selects the primary template, which calls
`ContainsInternal<values...>(i)`. -/
def Contains (values : List Int) (i : Int) : Bool :=
  match values with
  | [] => false
  | v :: vs => ContainsInternal v vs i

end SkipIndices

/-- The identification macros of a desktop Apple build, as `TargetConditionals.h`
provides them on macOS: `__APPLE__` defined, `TARGET_OS_MAC` equal to `1`, the
three mobile and simulator macros equal to `0`, and `__ANDROID__` not defined. -/
def desktopApple : Target :=
  { __ANDROID__ := false
    __APPLE__ := true
    TARGET_IPHONE_SIMULATOR := 0
    TARGET_OS_SIMULATOR := 0
    TARGET_OS_IPHONE := 0
    TARGET_OS_MAC := 1 }

/-! ## Theorems: SkipIndices -/

/-- The recursive overloads of `ContainsInternal` compute a conjunction: the
result is true exactly when the first value and every remaining value equal
`i`. -/
theorem SkipIndices.ContainsInternal_iff (v : Int) (vs : List Int) (i : Int) :
    SkipIndices.ContainsInternal v vs i = true ↔ v = i ∧ ∀ w ∈ vs, w = i := by
  induction vs generalizing v with
  | nil =>
    simp [SkipIndices.ContainsInternal]
    exact eq_comm
  | cons w ws ih =>
    simp only [SkipIndices.ContainsInternal, Bool.and_eq_true, beq_iff_eq, ih w,
      List.mem_cons, forall_eq_or_imp]
    constructor
    · rintro ⟨h1, h2, h3⟩
      exact ⟨h1.symm, h2, h3⟩
    · rintro ⟨h1, h2, h3⟩
      exact ⟨h1.symm, h2, h3⟩

/-- C1 (evaluation at the failing input): `SkipIndices<2,5,9>::Contains(5)`
returns false in the source although 5 is one of the listed values, because the
recursive overload joins the comparisons with `&&`. -/
theorem SkipIndices.Contains_2_5_9_at_5 :
    (5 : Int) ∈ ([2, 5, 9] : List Int) ∧ SkipIndices.Contains [2, 5, 9] 5 = false := by
  decide

/-- C2: the zero-argument specialisation `SkipIndices<>::Contains(x)` returns
false for every integer `x`. -/
theorem SkipIndices.Contains_empty (x : Int) : SkipIndices.Contains [] x = false := by
  rfl

/-- C9: for every `v` and `i`, `SkipIndices<v>::Contains(i)` is true if and only
if `i == v`; in particular `SkipIndices<7>::Contains(7)` is true and
`SkipIndices<7>::Contains(8)` is false. -/
theorem SkipIndices.Contains_singleton (v i : Int) :
    (SkipIndices.Contains [v] i = true ↔ i = v)
      ∧ SkipIndices.Contains [7] 7 = true
      ∧ SkipIndices.Contains [7] 8 = false := by
  refine ⟨?_, by decide, by decide⟩
  simp [SkipIndices.Contains, SkipIndices.ContainsInternal]

/-- C10 (counterexample): the two-element list `5, 5` has
`SkipIndices<5,5>::Contains(5)` true, so `Contains` is not false on every list
of two or more elements. -/
theorem SkipIndices.Contains_5_5_at_5 :
    2 ≤ ([5, 5] : List Int).length ∧ SkipIndices.Contains [5, 5] 5 = true := by
  decide

/-- C10 (amended): for every list of two or more values and every `i`,
`Contains(i)` is true exactly when every listed value equals `i`; hence it is
false for every `i` as soon as two of the listed values differ. -/
theorem SkipIndices.Contains_iff_all_eq (values : List Int) (i : Int)
    (hlen : 2 ≤ values.length) :
    (SkipIndices.Contains values i = true ↔ ∀ v ∈ values, v = i)
      ∧ ((∃ a ∈ values, ∃ b ∈ values, a ≠ b) → SkipIndices.Contains values i = false) := by
  have key : SkipIndices.Contains values i = true ↔ ∀ v ∈ values, v = i := by
    cases values with
    | nil => simp at hlen
    | cons v vs =>
      simp only [SkipIndices.Contains, SkipIndices.ContainsInternal_iff, List.mem_cons,
        forall_eq_or_imp]
  refine ⟨key, ?_⟩
  rintro ⟨a, ha, b, hb, hab⟩
  cases hc : SkipIndices.Contains values i with
  | false => rfl
  | true =>
    exfalso
    have hall := key.mp hc
    exact hab ((hall a ha).trans (hall b hb).symm)

/-- Witness of C10 (amended) at `SkipIndices<2,5,9>::Contains(5)`: the list has
three values, two of which differ, and the result is false. -/
theorem SkipIndices.Contains_iff_all_eq_witness :
    2 ≤ ([2, 5, 9] : List Int).length ∧ SkipIndices.Contains [2, 5, 9] 5 = false :=
  ⟨by decide,
    (SkipIndices.Contains_iff_all_eq [2, 5, 9] 5 (by decide)).2
      ⟨2, by decide, 5, by decide, by decide⟩⟩

/-! ## Theorems: version macro -/

/-- Every major field from 0 to 214747, with minor and patch in `[0,99]`, keeps
each subexpression of the encoding inside the range of a 32-bit `int`. -/
theorem versionEncoding_fits_of_major_le (major minor patch : Int)
    (hmajor : 0 ≤ major ∧ major ≤ 214747)
    (hminor : 0 ≤ minor ∧ minor ≤ 99) (hpatch : 0 ≤ patch ∧ patch ≤ 99) :
    -2147483648 ≤ major * 10000
      ∧ major * 10000 + minor * 100 + patch ≤ 2147483647 := by
  omega

/-- No wrap-around occurs when every subexpression of the encoding is inside
the range of a 32-bit `int`: the `int` expression then has its mathematical
value. -/
theorem versionEncoding_eq_of_fits (major minor patch : Int)
    (hminor : 0 ≤ minor ∧ minor ≤ 99) (hpatch : 0 ≤ patch ∧ patch ≤ 99)
    (hlo : -2147483648 ≤ major * 10000)
    (hhi : major * 10000 + minor * 100 + patch ≤ 2147483647) :
    versionEncoding major minor patch = major * 10000 + minor * 100 + patch := by
  unfold versionEncoding wrapInt32
  omega

/-- C3 (counterexample): with major 214749, minor 0 and patch 0 (minor and patch
in `[0,99]`) the `int` expression of `CAFFE2_VERSION` overflows: it evaluates to
-2147477296 and not to `214749*10000 + 0*100 + 0`. -/
theorem versionEncoding_overflow_at_214749 :
    ((0 : Int) ≤ 0 ∧ (0 : Int) ≤ 99)
      ∧ versionEncoding 214749 0 0 = -2147477296
      ∧ versionEncoding 214749 0 0 ≠ 214749 * 10000 + 0 * 100 + 0 := by
  decide

/-- C3 (amended): for every major and every minor and patch in `[0,99]` for which
the expression stays inside the range of a 32-bit `int`
(`-2^31 ≤ major*10000` and `major*10000 + minor*100 + patch ≤ 2^31 - 1`), the
encoding used by `CAFFE2_VERSION` equals `major*10000 + minor*100 + patch`; and
with the fields of the header (0, 6, 0) `CAFFE2_VERSION` is 600. -/
theorem CAFFE2_VERSION_encoding (major minor patch : Int)
    (hminor : 0 ≤ minor ∧ minor ≤ 99) (hpatch : 0 ≤ patch ∧ patch ≤ 99)
    (hlo : -2147483648 ≤ major * 10000)
    (hhi : major * 10000 + minor * 100 + patch ≤ 2147483647) :
    versionEncoding major minor patch = major * 10000 + minor * 100 + patch
      ∧ CAFFE2_VERSION = 600 := by
  constructor
  · exact versionEncoding_eq_of_fits major minor patch hminor hpatch hlo hhi
  · decide

/-- Witness of C3 (amended) at the fields of the header: major 0, minor 6,
patch 0. -/
theorem CAFFE2_VERSION_encoding_witness :
    versionEncoding 0 6 0 = 0 * 10000 + 6 * 100 + 0 ∧ CAFFE2_VERSION = 600 :=
  CAFFE2_VERSION_encoding 0 6 0 ⟨by decide, by decide⟩ ⟨by decide, by decide⟩
    (by decide) (by decide)

/-- C4 (counterexample): version 0.6.0 precedes version 214749.0.0
lexicographically, all fields are non-negative and minor, patch are below 100,
yet the encoded value 600 is not below the encoded value -2147477296. -/
theorem versionEncoding_order_fails_at_214749 :
    ((0 : Int) < 214749)
      ∧ versionEncoding 0 6 0 = 600
      ∧ versionEncoding 214749 0 0 = -2147477296
      ∧ ¬ (versionEncoding 0 6 0 < versionEncoding 214749 0 0
            ↔ ((0 : Int) < 214749
                ∨ ((0 : Int) = 214749
                    ∧ ((6 : Int) < 0 ∨ ((6 : Int) = 0 ∧ (0 : Int) < 0))))) := by
  decide

/-- C4 (amended): the encoding preserves order on versions it can represent: for
versions with non-negative fields, minor and patch below 100, and
`major*10000 + minor*100 + patch ≤ 2^31 - 1` for both, the encoded value of `a`
is below that of `b` if and only if `a` precedes `b` lexicographically (major,
then minor, then patch). -/
theorem versionEncoding_lt_iff_lex
    (major_a minor_a patch_a major_b minor_b patch_b : Int)
    (ha : 0 ≤ major_a ∧ 0 ≤ minor_a ∧ minor_a < 100 ∧ 0 ≤ patch_a ∧ patch_a < 100)
    (hb : 0 ≤ major_b ∧ 0 ≤ minor_b ∧ minor_b < 100 ∧ 0 ≤ patch_b ∧ patch_b < 100)
    (hfit_a : major_a * 10000 + minor_a * 100 + patch_a ≤ 2147483647)
    (hfit_b : major_b * 10000 + minor_b * 100 + patch_b ≤ 2147483647) :
    versionEncoding major_a minor_a patch_a < versionEncoding major_b minor_b patch_b
      ↔ (major_a < major_b
          ∨ (major_a = major_b
              ∧ (minor_a < minor_b ∨ (minor_a = minor_b ∧ patch_a < patch_b)))) := by
  rw [versionEncoding_eq_of_fits major_a minor_a patch_a (by omega) (by omega) (by omega) hfit_a,
    versionEncoding_eq_of_fits major_b minor_b patch_b (by omega) (by omega) (by omega) hfit_b]
  omega

/-- Witness of C4 (amended): version 0.6.0 precedes version 0.6.1, and 600 is
below 601. -/
theorem versionEncoding_lt_iff_lex_witness :
    versionEncoding 0 6 0 < versionEncoding 0 6 1
      ↔ ((0 : Int) < 0 ∨ ((0 : Int) = 0 ∧ ((6 : Int) < 6 ∨ ((6 : Int) = 6 ∧ (0 : Int) < 1)))) :=
  versionEncoding_lt_iff_lex 0 6 0 0 6 1 (by decide) (by decide) (by decide) (by decide)

/-! ## Theorems: platform detection -/

/-- When `CAFFE2_MOBILE` is not defined on entry, the detection block takes
exactly one of its four branches; this lists the directives of each. -/
theorem detectDirectives_cases (p : Target) (t : Macros) (h : t.CAFFE2_MOBILE = none) :
    (p.__ANDROID__ = true
        ∧ detectDirectives p t = [(Flag.CAFFE2_ANDROID, 1), (Flag.CAFFE2_MOBILE, 1)])
      ∨ (p.__ANDROID__ = false ∧ p.__APPLE__ = true
          ∧ (p.TARGET_IPHONE_SIMULATOR ≠ 0 ∨ p.TARGET_OS_SIMULATOR ≠ 0
              ∨ p.TARGET_OS_IPHONE ≠ 0)
          ∧ detectDirectives p t = [(Flag.CAFFE2_IOS, 1), (Flag.CAFFE2_MOBILE, 1)])
      ∨ (p.__ANDROID__ = false ∧ p.__APPLE__ = true
          ∧ p.TARGET_IPHONE_SIMULATOR = 0 ∧ p.TARGET_OS_SIMULATOR = 0
          ∧ p.TARGET_OS_IPHONE = 0 ∧ p.TARGET_OS_MAC ≠ 0
          ∧ detectDirectives p t = [(Flag.CAFFE2_IOS, 1), (Flag.CAFFE2_MOBILE, 0)])
      ∨ (p.__ANDROID__ = false
          ∧ (p.__APPLE__ = false
              ∨ (p.TARGET_IPHONE_SIMULATOR = 0 ∧ p.TARGET_OS_SIMULATOR = 0
                  ∧ p.TARGET_OS_IPHONE = 0 ∧ p.TARGET_OS_MAC = 0))
          ∧ detectDirectives p t = [(Flag.CAFFE2_MOBILE, 0)]) := by
  obtain ⟨a, b, x, y, z, m⟩ := p
  simp only [detectDirectives, h, Option.isSome_none, Bool.not_false, if_true]
  cases a <;> cases b <;> simp
  · by_cases hx : x = 0 <;> by_cases hy : y = 0 <;> by_cases hz : z = 0 <;>
      by_cases hm : m = 0 <;> simp [hx, hy, hz, hm]

/-- C5: for every combination of identification macros, when none of
`CAFFE2_MOBILE`, `CAFFE2_ANDROID`, `CAFFE2_IOS` is defined beforehand, the
detection block leaves at most one of `CAFFE2_ANDROID` and `CAFFE2_IOS` defined,
hence at most one of them true. -/
theorem detect_android_ios_exclusive (p : Target) (t : Macros)
    (hM : t.CAFFE2_MOBILE = none) (hA : t.CAFFE2_ANDROID = none)
    (hI : t.CAFFE2_IOS = none) :
    ¬ ((detect p t).CAFFE2_ANDROID.isSome = true ∧ (detect p t).CAFFE2_IOS.isSome = true)
      ∧ ¬ (flagTrue (detect p t).CAFFE2_ANDROID = true
            ∧ flagTrue (detect p t).CAFFE2_IOS = true) := by
  obtain ⟨tm, ta, ti⟩ := t
  simp only at hM hA hI
  subst hM hA hI
  rcases detectDirectives_cases p ⟨none, none, none⟩ rfl with
    ⟨_, hd⟩ | ⟨_, _, _, hd⟩ | ⟨_, _, _, _, _, _, hd⟩ | ⟨_, _, hd⟩ <;>
    simp [detect, hd, Macros.define, flagTrue]

/-- Witness of C5 on an Android build with nothing defined beforehand:
`CAFFE2_ANDROID` becomes 1 and `CAFFE2_IOS` stays undefined. -/
theorem detect_android_ios_exclusive_witness :
    (detect ⟨true, false, 0, 0, 0, 0⟩ Macros.undefined).CAFFE2_ANDROID = some 1
      ∧ ¬ (flagTrue (detect ⟨true, false, 0, 0, 0, 0⟩ Macros.undefined).CAFFE2_ANDROID = true
            ∧ flagTrue (detect ⟨true, false, 0, 0, 0, 0⟩ Macros.undefined).CAFFE2_IOS = true) :=
  ⟨by decide,
    (detect_android_ios_exclusive ⟨true, false, 0, 0, 0, 0⟩ Macros.undefined rfl rfl rfl).2⟩

/-- C6 (counterexample): on a desktop Apple build with nothing defined
beforehand the block sets `CAFFE2_IOS` to 1 while `CAFFE2_MOBILE` is 0, so
"`CAFFE2_MOBILE` is 1 exactly when `CAFFE2_ANDROID` or `CAFFE2_IOS` has been set
to 1" fails there. -/
theorem detect_mobile_ne_android_or_ios_desktopApple :
    Macros.undefined.CAFFE2_MOBILE = none
      ∧ ¬ ((detect desktopApple Macros.undefined).CAFFE2_MOBILE = some 1
            ↔ ((Flag.CAFFE2_ANDROID, 1) ∈ detectDirectives desktopApple Macros.undefined
                ∨ (Flag.CAFFE2_IOS, 1) ∈ detectDirectives desktopApple Macros.undefined)) := by
  decide

/-- C6 (amended): with no external definition of `CAFFE2_MOBILE`, the block
defines `CAFFE2_MOBILE` as 1 or as 0, and it is 1 exactly when `CAFFE2_ANDROID`
or `CAFFE2_IOS` has been set to 1 outside the desktop-Apple branch
(`__ANDROID__` undefined, `__APPLE__` defined, `TARGET_OS_MAC` true, none of
`TARGET_IPHONE_SIMULATOR`, `TARGET_OS_SIMULATOR`, `TARGET_OS_IPHONE` true); on
that branch `CAFFE2_IOS` is set to 1 and `CAFFE2_MOBILE` is 0. -/
theorem detect_mobile_iff (p : Target) (t : Macros) (hM : t.CAFFE2_MOBILE = none) :
    ((detect p t).CAFFE2_MOBILE = some 1 ∨ (detect p t).CAFFE2_MOBILE = some 0)
      ∧ ((detect p t).CAFFE2_MOBILE = some 1
          ↔ (((Flag.CAFFE2_ANDROID, 1) ∈ detectDirectives p t
                ∨ (Flag.CAFFE2_IOS, 1) ∈ detectDirectives p t)
              ∧ ¬ (p.__ANDROID__ = false ∧ p.__APPLE__ = true
                    ∧ p.TARGET_IPHONE_SIMULATOR = 0 ∧ p.TARGET_OS_SIMULATOR = 0
                    ∧ p.TARGET_OS_IPHONE = 0 ∧ p.TARGET_OS_MAC ≠ 0)))
      ∧ ((p.__ANDROID__ = false ∧ p.__APPLE__ = true
            ∧ p.TARGET_IPHONE_SIMULATOR = 0 ∧ p.TARGET_OS_SIMULATOR = 0
            ∧ p.TARGET_OS_IPHONE = 0 ∧ p.TARGET_OS_MAC ≠ 0)
          → (Flag.CAFFE2_IOS, 1) ∈ detectDirectives p t
              ∧ (detect p t).CAFFE2_MOBILE = some 0) := by
  rcases detectDirectives_cases p t hM with
    ⟨h1, hd⟩ | ⟨h1, h2, h3, hd⟩ | ⟨h1, h2, h3, h4, h5, h6, hd⟩ | ⟨h1, h2, hd⟩
  · simp [detect, hd, Macros.define, h1]
  · simp [detect, hd, Macros.define, h1, h2]
    intro hx hy hz
    rcases h3 with h3 | h3 | h3
    · exact absurd hx h3
    · exact absurd hy h3
    · exact absurd hz h3
  · simp [detect, hd, Macros.define, h1, h2, h3, h4, h5, h6]
  · simp [detect, hd, Macros.define, h1]
    rcases h2 with h2 | ⟨_, _, _, h2⟩
    · simp [h2]
    · intro _ _ _ _
      exact h2

/-- Witness of C6 (amended) on a desktop Apple build with nothing defined
beforehand: `CAFFE2_IOS` is set to 1 and `CAFFE2_MOBILE` is 0. -/
theorem detect_mobile_iff_witness :
    Macros.undefined.CAFFE2_MOBILE = none
      ∧ (Flag.CAFFE2_IOS, 1) ∈ detectDirectives desktopApple Macros.undefined
      ∧ (detect desktopApple Macros.undefined).CAFFE2_MOBILE = some 0 :=
  ⟨rfl, (detect_mobile_iff desktopApple Macros.undefined rfl).2.2 (by decide)⟩

/-- C7 (counterexample): on a desktop Apple build (`__APPLE__` defined,
`TARGET_OS_MAC` true, the three mobile and simulator macros false, `__ANDROID__`
undefined, nothing defined beforehand) the block does not resolve both flags to
false: `CAFFE2_IOS` is defined as 1. -/
theorem detect_desktopApple_ios_not_false :
    (desktopApple.__ANDROID__ = false ∧ desktopApple.__APPLE__ = true
        ∧ desktopApple.TARGET_IPHONE_SIMULATOR = 0 ∧ desktopApple.TARGET_OS_SIMULATOR = 0
        ∧ desktopApple.TARGET_OS_IPHONE = 0 ∧ desktopApple.TARGET_OS_MAC ≠ 0)
      ∧ ¬ (flagTrue (detect desktopApple Macros.undefined).CAFFE2_IOS = false
            ∧ flagTrue (detect desktopApple Macros.undefined).CAFFE2_MOBILE = false) := by
  decide

/-- C7 (amended): with neither `CAFFE2_MOBILE` nor `CAFFE2_IOS` defined
beforehand, a desktop Apple build (`__APPLE__` defined, `TARGET_OS_MAC` true,
none of `TARGET_IPHONE_SIMULATOR`, `TARGET_OS_SIMULATOR`, `TARGET_OS_IPHONE`
true, `__ANDROID__` undefined) resolves `CAFFE2_IOS` to 1 and `CAFFE2_MOBILE` to
0; and for every combination of identification macros the iOS flag is true only
when `__APPLE__` is defined and one of `TARGET_IPHONE_SIMULATOR`,
`TARGET_OS_SIMULATOR`, `TARGET_OS_IPHONE`, `TARGET_OS_MAC` is true. -/
theorem detect_desktopApple_ios (p : Target) (t : Macros)
    (hM : t.CAFFE2_MOBILE = none) (hI : t.CAFFE2_IOS = none) :
    ((p.__ANDROID__ = false ∧ p.__APPLE__ = true
          ∧ p.TARGET_IPHONE_SIMULATOR = 0 ∧ p.TARGET_OS_SIMULATOR = 0
          ∧ p.TARGET_OS_IPHONE = 0 ∧ p.TARGET_OS_MAC ≠ 0)
        → (detect p t).CAFFE2_IOS = some 1 ∧ (detect p t).CAFFE2_MOBILE = some 0)
      ∧ (flagTrue (detect p t).CAFFE2_IOS = true
          → p.__APPLE__ = true
              ∧ (p.TARGET_IPHONE_SIMULATOR ≠ 0 ∨ p.TARGET_OS_SIMULATOR ≠ 0
                  ∨ p.TARGET_OS_IPHONE ≠ 0 ∨ p.TARGET_OS_MAC ≠ 0)) := by
  rcases detectDirectives_cases p t hM with
    ⟨h1, hd⟩ | ⟨h1, h2, h3, hd⟩ | ⟨h1, h2, h3, h4, h5, h6, hd⟩ | ⟨h1, h2, hd⟩
  · simp [detect, hd, Macros.define, h1, hI, flagTrue]
  · refine ⟨?_, ?_⟩
    · rintro ⟨_, _, hx, hy, hz, _⟩
      rcases h3 with h3 | h3 | h3
      · exact absurd hx h3
      · exact absurd hy h3
      · exact absurd hz h3
    · intro _
      refine ⟨h2, ?_⟩
      rcases h3 with h3 | h3 | h3
      · exact Or.inl h3
      · exact Or.inr (Or.inl h3)
      · exact Or.inr (Or.inr (Or.inl h3))
  · refine ⟨?_, ?_⟩
    · intro _
      simp [detect, hd, Macros.define]
    · intro _
      exact ⟨h2, Or.inr (Or.inr (Or.inr h6))⟩
  · simp [detect, hd, Macros.define, h1, hI, flagTrue]
    rcases h2 with h2 | ⟨_, _, _, h2⟩
    · simp [h2]
    · intro _ _ _ _
      exact h2

/-- Witness of C7 (amended) on a desktop Apple build with nothing defined
beforehand: `CAFFE2_IOS` is 1 and `CAFFE2_MOBILE` is 0. -/
theorem detect_desktopApple_ios_witness :
    Macros.undefined.CAFFE2_MOBILE = none ∧ Macros.undefined.CAFFE2_IOS = none
      ∧ (detect desktopApple Macros.undefined).CAFFE2_IOS = some 1
      ∧ (detect desktopApple Macros.undefined).CAFFE2_MOBILE = some 0 :=
  ⟨rfl, rfl, (detect_desktopApple_ios desktopApple Macros.undefined rfl rfl).1 (by decide)⟩

/-- C8: if `CAFFE2_MOBILE` is already defined (as `v`) before the block, then
for every combination of identification macros the block executes no directive
and leaves the macro table unchanged: `CAFFE2_MOBILE` keeps the value `v`, and
neither `CAFFE2_ANDROID` nor `CAFFE2_IOS` is defined by the block. -/
theorem detect_override_wins (p : Target) (t : Macros) (v : Int)
    (hM : t.CAFFE2_MOBILE = some v) :
    (detect p t).CAFFE2_MOBILE = some v
      ∧ detectDirectives p t = []
      ∧ (detect p t).CAFFE2_ANDROID = t.CAFFE2_ANDROID
      ∧ (detect p t).CAFFE2_IOS = t.CAFFE2_IOS
      ∧ detect p t = t := by
  have hd : detectDirectives p t = [] := by
    simp [detectDirectives, hM]
  simp [detect, hd, hM]

/-- Witness of C8 on an Android build where `CAFFE2_MOBILE` was defined as 0
beforehand: the value stays 0 and `CAFFE2_ANDROID` stays undefined. -/
theorem detect_override_wins_witness :
    (detect ⟨true, false, 0, 0, 0, 0⟩ ⟨some 0, none, none⟩).CAFFE2_MOBILE = some 0
      ∧ (detect ⟨true, false, 0, 0, 0, 0⟩ ⟨some 0, none, none⟩).CAFFE2_ANDROID = none :=
  ⟨(detect_override_wins ⟨true, false, 0, 0, 0, 0⟩ ⟨some 0, none, none⟩ 0 rfl).1,
    (detect_override_wins ⟨true, false, 0, 0, 0, 0⟩ ⟨some 0, none, none⟩ 0 rfl).2.2.1⟩

end caffe2
